import Mathlib

/-!
Verification of the Python-XTB-API repository core: candle response shaping,
period resolution, time-window resolution, epoch conversion, connection
liveness, and logout cleanup.  Each definition is a shallow embedding of the
corresponding Python function; fallible Python paths (raised exceptions)
are modelled with `Except PyError`, and the `False` "no data" sentinel of
the candle operations is modelled with `Option` (`none` = `False`).
All machine arithmetic in the source is Python arbitrary-precision `int`,
modelled with `Int`.
-/

/-- Python exception classes that the modelled code can raise. -/
inductive PyError where
  | typeError
  | valueError
  | indexError
  | keyError
  | jsonDecodeError
  | attributeError
deriving DecidableEq

/-- One entry of the `rateInfos` array of a parsed chart reply
(`result["returnData"]["rateInfos"][i]`).  Prices are forwarded verbatim by
the shaping code, so their numeric type is irrelevant; `Int` is used. -/
structure RateInfo where
  ctmString : String
  openPrice : Int
  closePrice : Int
  highPrice : Int
  lowPrice : Int
deriving DecidableEq

/-- An output record of the candle-shaping operations: either the single
leading metadata dict `{"digits": .., "qty_candles": ..}` or a price dict
`{"datetime": .., "open": .., "close": .., "high": .., "low": ..}`. -/
inductive Candle where
  | meta (digits : Int) (qty_candles : Int)
  | price (datetime : String) (openPrice closePrice highPrice lowPrice : Int)
deriving DecidableEq

/-- The price-record constructor used by both shaping paths
(`candle["datetime"]=rate["ctmString"]; candle["open"]=rate["open"]; ...`). -/
def rateToCandle (r : RateInfo) : Candle :=
  Candle.price r.ctmString r.openPrice r.closePrice r.highPrice r.lowPrice

/-- `XTB._parse_candle_response` / `XTBHistory._parse_candle_response`
(src/xtb_api.py lines 137-157, src/xtb_history.py lines 160-180).
The reply is modelled by its already-extracted `rateInfos` list and
`digits` value; `none` models the Python return value `False`.
`max 0 (len - qty)` is Python `max(0, len(rate_infos) - qty_candles)`. -/
def parse_candle_response (rateInfos : List RateInfo) (digits : Int)
    (qty_candles : Int) : Option (List Candle) :=
  if rateInfos.isEmpty then none
  else
    let metaRec := Candle.meta digits
      (if qty_candles = 0 then (rateInfos.length : Int) else qty_candles)
    let start_index : Int :=
      if qty_candles = 0 then 0 else max 0 ((rateInfos.length : Int) - qty_candles)
    some (metaRec :: (rateInfos.drop start_index.toNat).map rateToCandle)

/-- Python list indexing `l[i]` with an `int` index: non-negative indices
read from the front, negative indices count from the end, and anything
outside `[-len, len)` raises `IndexError` (modelled as `none`). -/
def pyIndex (l : List RateInfo) (i : Int) : Option RateInfo :=
  if 0 ≤ i then l[i.toNat]?
  else if 0 ≤ i + (l.length : Int) then l[(i + (l.length : Int)).toNat]?
  else none

/-- Python `range(lo, hi)` over `int` bounds, as the list of its elements. -/
def pyRange (lo hi : Int) : List Int :=
  (List.range (hi - lo).toNat).map (fun (k : ℕ) => lo + (k : Int))

/-- The body of the `for i in range(start_qty, qty)` loop of
`XTB.get_candles_range` (src/xtb_api.py lines 258-265): reads
`rateInfos[i]` for each index in order, raising `IndexError` at the first
out-of-range index, and builds the price records in order. -/
def loopRecords (l : List RateInfo) (idxs : List Int) :
    Except PyError (List Candle) :=
  match idxs with
  | [] => Except.ok []
  | i :: rest =>
    match pyIndex l i with
    | none => Except.error PyError.indexError
    | some r =>
      match loopRecords l rest with
      | Except.error e => Except.error e
      | Except.ok cs => Except.ok (rateToCandle r :: cs)

/-- The inline response shaping of `XTB.get_candles_range`
(src/xtb_api.py lines 243-268).  `qty` is `len(result["returnData"]["rateInfos"])`;
`start_qty` is computed exactly as in the source (including the
re-assignment when the reply is empty), and the final
`if len(candles)==1: return False` is the `Except.ok none` branch. -/
def get_candles_range_shape (rateInfos : List RateInfo) (digits : Int)
    (qty_candles : Int) : Except PyError (Option (List Candle)) :=
  let qty : Int := (rateInfos.length : Int)
  let start_qty : Int := if qty_candles = 0 then 0 else qty - qty_candles
  let start_qty : Int := if qty = 0 then 0 else start_qty
  match loopRecords rateInfos (pyRange start_qty qty) with
  | Except.error e => Except.error e
  | Except.ok recs =>
    let candles :=
      Candle.meta digits (if qty_candles = 0 then qty else qty_candles) :: recs
    if candles.length = 1 then Except.ok none else Except.ok (some candles)

/-- `XTB.is_open` (src/xtb_api.py lines 571-581): runs
`get_candles("M1", symbol, qty_candles=1)` and then `len(candles)`.
The reply of the single-candle request is modelled by its `rateInfos` and
`digits`; when the shaping returns the sentinel `False`, the Python
`len(False)` raises `TypeError`. -/
def XTB_is_open_shape (rateInfos : List RateInfo) (digits : Int) :
    Except PyError Bool :=
  match parse_candle_response rateInfos digits 1 with
  | none => Except.error PyError.typeError
  | some candles => Except.ok (if candles.length = 1 then false else true)

/-- A synthetic server reply with ten rate records. -/
def sampleRates : List RateInfo :=
  (List.range 10).map
    (fun i => ⟨toString i, (i : Int), (i : Int) + 1, (i : Int) + 2, (i : Int) + 3⟩)

/-- A single synthetic rate record. -/
def rA : RateInfo := ⟨"a", 1, 2, 3, 4⟩

/-- A synthetic server reply with exactly one rate record. -/
def sampleOne : List RateInfo := [rA]

/-- A sample wire message. -/
def msgA : String := "ping"

/-- The nine supported period tokens, in source order. -/
def periodTokens : List String :=
  [("M1"), ("M5"), ("M15"), ("M30"), ("H1"), ("H4"), ("D1"), ("W1"), ("MN1")]

/-- The documented minute values of the nine period tokens. -/
def periodValues : List Int := [1, 5, 15, 30, 60, 240, 1440, 10080, 43200]

deriving instance DecidableEq for Except

/-- The `period_map` dictionary shared by `XTBHistory._resolve_period_minutes`
(src/xtb_history.py lines 109-119) and `XTB.get_candles`
(src/xtb_api.py lines 94-104), as a lookup function. -/
def period_map (p : String) : Option Int :=
  if p = "M1" then some 1
  else if p = "M5" then some 5
  else if p = "M15" then some 15
  else if p = "M30" then some 30
  else if p = "H1" then some 60
  else if p = "H4" then some 240
  else if p = "D1" then some 1440
  else if p = "W1" then some 10080
  else if p = "MN1" then some 43200
  else none

/-- `XTBHistory._resolve_period_minutes` (src/xtb_history.py lines 107-122),
and equally the inline `if period not in period_map: raise ValueError` check
of `XTB.get_candles` (src/xtb_api.py lines 106-109). -/
def resolve_period_minutes (p : String) : Except PyError Int :=
  match period_map p with
  | some m => Except.ok m
  | none => Except.error PyError.valueError

/-- The `if period=="M1": period=1 elif ... ` chain of
`XTB.get_candles_range` (src/xtb_api.py lines 191-208).  The chain has no
final `else`, so an unrecognised token leaves `period` bound to the
original string (`Sum.inr`). -/
def XTB_get_candles_range_period (p : String) : Sum Int String :=
  if p = "M1" then Sum.inl 1
  else if p = "M5" then Sum.inl 5
  else if p = "M15" then Sum.inl 15
  else if p = "M30" then Sum.inl 30
  else if p = "H1" then Sum.inl 60
  else if p = "H4" then Sum.inl 240
  else if p = "D1" then Sum.inl 1440
  else if p = "W1" then Sum.inl 10080
  else if p = "MN1" then Sum.inl 43200
  else Sum.inr p

/-- `XTB.to_milliseconds` / `XtbUtils.to_milliseconds`
(src/xtb_api.py lines 528-534, src/xtb_utils.py lines 43-52). -/
def to_milliseconds (days hours minutes : Int) : Int :=
  days * 24 * 60 * 60 * 1000 + hours * 60 * 60 * 1000 + minutes * 60 * 1000

/-- The `start` field of the wire request built by `XTB.get_candles`
(src/xtb_api.py lines 110-117), given the resolved `period_minutes` and
the server time.  The source computes `extra_minutes` and `total_minutes`
but then passes the raw `minutes` to `to_milliseconds`, exactly as
transcribed here. -/
def XTB_get_candles_start (server_time days hours minutes period_minutes
    qty_candles : Int) : Int :=
  let extra_minutes :=
    if qty_candles ≠ 0 then qty_candles * period_minutes * 2 else period_minutes
  let total_minutes := minutes + extra_minutes
  server_time - to_milliseconds days hours minutes

/-- `XTBHistory._resolve_start_from_qty_or_days`
(src/xtb_history.py lines 124-134). -/
def resolve_start_from_qty_or_days (base_minutes base_hours period_minutes
    qty_candles : Int) : Int :=
  let additional_minutes :=
    if qty_candles ≠ 0 then qty_candles * period_minutes else 0
  let additional_minutes :=
    if qty_candles ≠ 0 then additional_minutes * 2 else additional_minutes
  base_minutes + base_hours * 60 + additional_minutes

/-- The `start` field of the wire request built by `XTBHistory.get_candles`
(src/xtb_history.py lines 28-36): the resolved minute total is passed as
`minutes` while `days` and `hours` from the timeframe are passed again
alongside it. -/
def XTBHistory_get_candles_start (server_time days hours minutes
    period_minutes qty_candles : Int) : Int :=
  server_time - to_milliseconds days hours
    (resolve_start_from_qty_or_days minutes hours period_minutes qty_candles)

/-- Observable transport actions of the session layer: a websocket
reconnect (`connect()`), a socket write (`ws.send`), a socket read
(`ws.recv`). -/
inductive WireAction where
  | connectA
  | sendA (msg : String)
  | recvA
deriving DecidableEq

/-- `XTB.is_on` (src/xtb_api.py lines 559-569).  Times are rationals in
seconds (`total_seconds()` of the datetime difference); the source reads
the clock twice, once for the comparison (`now`) and once for the
re-assignment of `exec_start` (`now2`).  Returns the connect attempts made
and the new `exec_start`. -/
def XTB_is_on (exec_start now now2 : ℚ) : List WireAction × ℚ :=
  let temp := now - exec_start
  (if temp ≥ 8 then [WireAction.connectA] else [], now2)

/-- `XTB.send` (src/xtb_api.py lines 611-619): runs `is_on` and then writes
the message and performs one blocking read.  Returns the action trace and
the new `exec_start`. -/
def XTB_send (msg : String) (exec_start now now2 : ℚ) :
    List WireAction × ℚ :=
  let r := XTB_is_on exec_start now now2
  (r.1 ++ [WireAction.sendA msg, WireAction.recvA], r.2)

/-- `XtbConnectivity.is_on` (src/xtb_connection.py lines 87-93).
`self.get_time` is not a callable there: `__init__` assigns
`XtbUtils.get_time(self)`, a single datetime value captured at
construction time (the call itself already raises `TypeError`, since
`get_time` is a zero-argument staticmethod; the model charitably assumes a
frozen value was stored).  The check therefore compares the frozen value
with `exec_start` and re-assigns the frozen value. -/
def XtbConnectivity_is_on (frozen exec_start : ℚ) : List WireAction × ℚ :=
  let temp := frozen - exec_start
  (if temp ≥ 8 then [WireAction.connectA] else [], frozen)

/-- A Python `datetime` value at second precision (the `%m/%d/%Y %H:%M:%S`
format used throughout the source carries exactly these fields; parsing a
well-formed string is modelled by the parsed fields themselves). -/
structure PyDateTime where
  year : Int
  month : Int
  day : Int
  hour : Int
  minute : Int
  second : Int
deriving DecidableEq

/-- Days from 1970-01-01 of a proleptic-Gregorian civil date (the calendar
Python `datetime` arithmetic uses); standard era-based algorithm.  All
intermediate quantities are non-negative for the years involved. -/
def days_from_civil (y m d : Int) : Int :=
  let y2 := if m ≤ 2 then y - 1 else y
  let era := (if 0 ≤ y2 then y2 else y2 - 399) / 400
  let yoe := y2 - era * 400
  let mp := (m + 9) % 12
  let doy := (153 * mp + 2) / 5 + d - 1
  let doe := yoe * 365 + yoe / 4 - yoe / 100 + doy
  era * 146097 + doe - 719468

/-- Inverse of `days_from_civil`: the civil date (year, month, day) of a
day count from 1970-01-01. -/
def civil_from_days (z : Int) : Int × Int × Int :=
  let z2 := z + 719468
  let era := (if 0 ≤ z2 then z2 else z2 - 146096) / 146097
  let doe := z2 - era * 146097
  let yoe := (doe - doe / 1460 + doe / 36524 - doe / 146096) / 365
  let y := yoe + era * 400
  let doy := doe - (365 * yoe + yoe / 4 - yoe / 100)
  let mp := (5 * doy + 2) / 153
  let d := doy - (153 * mp + 2) / 5 + 1
  let m := mp + (if mp < 10 then 3 else -9)
  (if m ≤ 2 then y + 1 else y, m, d)

/-- Seconds from the epoch 1970-01-01 00:00:00 of a `PyDateTime`
(the value of `(dt - datetime(1970,1,1)).total_seconds()`, which is a
whole number at second precision). -/
def dt_to_seconds (t : PyDateTime) : Int :=
  days_from_civil t.year t.month t.day * 86400
    + t.hour * 3600 + t.minute * 60 + t.second

/-- The `PyDateTime` lying the given number of seconds from the epoch
(Python `datetime` arithmetic normalises with floor division). -/
def dt_of_seconds (s : Int) : PyDateTime :=
  let z := Int.fdiv s 86400
  let sod := s - z * 86400
  let c := civil_from_days z
  ⟨c.1, c.2.1, c.2.2, sod / 3600, sod % 3600 / 60, sod % 60⟩

/-- Python `dt - timedelta(...)` expressed in seconds. -/
def dt_sub_seconds (t : PyDateTime) (s : Int) : PyDateTime :=
  dt_of_seconds (dt_to_seconds t - s)

/-- `XTB.time_conversion` (src/xtb_api.py lines 536-555).  The source
splits `str(date - epoch)` on the substring made of a comma and a space;
that substring is present exactly when the timedelta has a non-zero day
component, so for dates within the first day after the epoch the 2-tuple
unpacking raises `ValueError`.  Otherwise the hours/minutes/seconds parts
of the timedelta are read back and 2 is added to the hours before the
millisecond total is formed.  `timedelta.days` is floor division. -/
def XTB_time_conversion (date : PyDateTime) : Except PyError Int :=
  let total := dt_to_seconds date
  let days := Int.fdiv total 86400
  let rem := total - days * 86400
  let hours := rem / 3600
  let minutes := rem % 3600 / 60
  let seconds := rem % 60
  if days = 0 then Except.error PyError.valueError
  else
    let hours := hours + 2
    Except.ok (days * 24 * 60 * 60 * 1000 + hours * 60 * 60 * 1000
      + minutes * 60 * 1000 + seconds * 1000)

/-- `XtbUtils.time_conversion` (src/xtb_utils.py lines 54-71):
`int((dt - datetime(1970,1,1)).total_seconds() * 1000)`, exact at second
precision. -/
def XtbUtils_time_conversion (date : PyDateTime) : Int :=
  dt_to_seconds date * 1000

/-- A `start`/`end` argument of `XTB.get_candles_range`: either the integer
default `0` (or any other integer, `Sum.inl`) or a well-formed date string
(`Sum.inr`, modelled by its parsed fields). -/
def TimeArg : Type := Sum Int PyDateTime

/-- `self.time_conversion(arg)` as invoked by `XTB.get_candles_range` on a
`start`/`end` value: on an integer, `datetime.strptime` receives a
non-string and raises `TypeError`; on a date string it is
`XTB.time_conversion`. -/
def time_conversion_arg : TimeArg → Except PyError Int
  | Sum.inl _ => Except.error PyError.typeError
  | Sum.inr d => XTB_time_conversion d

/-- The start/end resolution and conversion of `XTB.get_candles_range`
(src/xtb_api.py lines 210-225), given the already-resolved integer
`period`, the current local time `now` (second precision, as produced by
`strftime` of `get_time()`), and the `start`/`end`/`days`/`qty_candles`
arguments.  The defaulting of `start` is nested inside the `end==0`
branch, exactly as in the source. -/
def XTB_get_candles_range_times (now : PyDateTime) (period : Int)
    (start end_ : TimeArg) (days qty_candles : Int) :
    Except PyError (Int × Int) :=
  let se : TimeArg × TimeArg :=
    match end_ with
    | Sum.inl 0 =>
      match start with
      | Sum.inl 0 =>
        if qty_candles = 0 then
          (Sum.inr (dt_sub_seconds now (days * 86400)), Sum.inr now)
        else
          (Sum.inr (dt_sub_seconds now (period * qty_candles * 60)), Sum.inr now)
      | s => (s, Sum.inr now)
    | e => (start, e)
  match time_conversion_arg se.1 with
  | Except.error e => Except.error e
  | Except.ok sMs =>
    match time_conversion_arg se.2 with
    | Except.error e => Except.error e
    | Except.ok eMs => Except.ok (sMs, eMs)

/-- Outcome of parsing a logout reply: not valid JSON, JSON without a
`status` field, or JSON whose `status` truth-value is `b`. -/
inductive ReplyParse where
  | notJson
  | noStatus
  | withStatus (b : Bool)
deriving DecidableEq

/-- `XTB.logout` (src/xtb_api.py lines 45-63) after the logout command has
been sent, as a function of the reply parse: the result (return value or
raised exception) paired with whether `disconnect()` was invoked on that
path.  `json.loads` and the `result["status"]` subscript both run before
`self.disconnect()`. -/
def XTB_logout : ReplyParse → Except PyError Bool × Bool
  | ReplyParse.notJson => (Except.error PyError.jsonDecodeError, false)
  | ReplyParse.noStatus => (Except.error PyError.keyError, false)
  | ReplyParse.withStatus b => (Except.ok b, true)

/-- `XTBAuth.logout` (src/xtb_auth.py lines 29-49): the reply is read in a
`try` whose `finally` runs `self.disconnect()` — but `XTBAuth` defines no
`disconnect` attribute (only `__init__`, `login`, `logout`, and the `api`
field), so the `finally` raises `AttributeError` on every path, and that
exception supersedes the pending `return False` / `return success`.
`disconnect` is therefore never invoked on any path. -/
def XTBAuth_logout : ReplyParse → Except PyError Bool × Bool
  | ReplyParse.notJson => (Except.error PyError.attributeError, false)
  | ReplyParse.noStatus => (Except.error PyError.attributeError, false)
  | ReplyParse.withStatus _ => (Except.error PyError.attributeError, false)

/-- `XtbConnectivity.logout` (src/xtb_connection.py lines 34-47): same
shape as `XTB.logout`, with the reply parsed and subscripted before
`self.disconnect()`. -/
def XtbConnectivity_logout : ReplyParse → Except PyError Bool × Bool
  | ReplyParse.notJson => (Except.error PyError.jsonDecodeError, false)
  | ReplyParse.noStatus => (Except.error PyError.keyError, false)
  | ReplyParse.withStatus b => (Except.ok b, true)

/-- C1: the claimed lookback for `get_candles` with period M1 (1 minute),
`qty_candles = 1` and an explicit one-hour window is
`serverTime - to_milliseconds 0 1 (0 + 1*1*2)`; neither implementation
produces it.  `XTB.get_candles` drops the computed `extra_minutes`
entirely (start = serverTime - 3600000 ms), and `XTBHistory.get_candles`
counts the hour a second time inside the minutes total
(start = serverTime - 7320000 ms), instead of the claimed
serverTime - 3720000 ms. -/
theorem get_candles_lookback_bug :
    XTB_get_candles_start 0 0 1 0 1 1 ≠ 0 - to_milliseconds 0 1 (0 + 1 * 1 * 2)
    ∧ XTBHistory_get_candles_start 0 0 1 0 1 1
        ≠ 0 - to_milliseconds 0 1 (0 + 1 * 1 * 2)
    ∧ XTB_get_candles_start 0 0 1 0 1 1 = -3600000
    ∧ XTBHistory_get_candles_start 0 0 1 0 1 1 = -7320000
    ∧ 0 - to_milliseconds 0 1 (0 + 1 * 1 * 2) = -3720000 := by
  refine ⟨?_, ?_, ?_, ?_, ?_⟩ <;> decide

/-- C2: `XTB.send` reconnects exactly once before the write when 10
seconds have elapsed and not at all at 7 seconds, updating `exec_start`
to the current time in both cases; but `XtbConnectivity.is_on`, whose
`self.get_time` is a value frozen at construction (time 0), performs no
reconnect even when the wall clock has reached 10 seconds, and resets
`exec_start` to the frozen time instead of the current time. -/
theorem liveness_frozen_clock_bug :
    XTB_send msgA 0 10 10
      = ([WireAction.connectA, WireAction.sendA msgA, WireAction.recvA], 10)
    ∧ XTB_send msgA 0 7 7 = ([WireAction.sendA msgA, WireAction.recvA], 7)
    ∧ XtbConnectivity_is_on 0 0 = ([], 0) := by
  refine ⟨?_, ?_, ?_⟩ <;> norm_num [XTB_send, XTB_is_on, XtbConnectivity_is_on]

/-- C5: `XTB.is_open` on a symbol whose single-candle M1 request yields an
empty `rateInfos` array raises `TypeError` (the sentinel `False` returned
by `get_candles` is passed to `len`), instead of returning `False` as
claimed; on a reply with one record it returns `True`. -/
theorem is_open_no_data_bug :
    XTB_is_open_shape ([] : List RateInfo) 5 = Except.error PyError.typeError
    ∧ XTB_is_open_shape sampleOne 5 = Except.ok true := by
  exact ⟨rfl, rfl⟩

/-- C6: in `XTB.get_candles_range`, the defaulting of an unspecified
`start` is nested inside the `end==0` branch, so with an explicit `end`
(here 1970-01-02 00:00:00), `start` unspecified, `days = 5` and
`qty_candles = 0` the call raises `TypeError` (`strptime` applied to the
integer 0) instead of defaulting `start` to `end - days` as claimed. -/
theorem range_start_default_bug :
    XTB_get_candles_range_times ⟨1970, 3, 2, 12, 0, 0⟩ 1
      (Sum.inl 0) (Sum.inr ⟨1970, 1, 2, 0, 0, 0⟩) 5 0
      = Except.error PyError.typeError := by
  rfl

/-- C8: `XTB.time_conversion` maps 01/02/1970 00:00:00 to 93600000 (the
claimed 86400000 plus a two-hour offset) and raises `ValueError` on
01/01/1970 00:00:00 (the timedelta string has no comma to split), while
`XtbUtils.time_conversion` matches the claimed values 86400000 and 0. -/
theorem time_conversion_offset_bug :
    XTB_time_conversion ⟨1970, 1, 2, 0, 0, 0⟩ = Except.ok 93600000
    ∧ XTB_time_conversion ⟨1970, 1, 1, 0, 0, 0⟩ = Except.error PyError.valueError
    ∧ XtbUtils_time_conversion ⟨1970, 1, 2, 0, 0, 0⟩ = 86400000
    ∧ XtbUtils_time_conversion ⟨1970, 1, 1, 0, 0, 0⟩ = 0 := by
  refine ⟨?_, ?_, ?_, ?_⟩ <;> decide

/-- C9: on a logout reply that is not JSON (or lacks the `status` field),
`XTB.logout` and `XtbConnectivity.logout` raise before reaching
`disconnect()` (second component `false` = disconnect skipped), contrary
to the claim; and `XTBAuth.logout` never disconnects on any path, its
`finally` raising `AttributeError` because the class has no `disconnect`
attribute — even on a well-formed successful reply. -/
theorem logout_disconnect_bug :
    XTB_logout ReplyParse.notJson = (Except.error PyError.jsonDecodeError, false)
    ∧ XTB_logout ReplyParse.noStatus = (Except.error PyError.keyError, false)
    ∧ XtbConnectivity_logout ReplyParse.notJson
        = (Except.error PyError.jsonDecodeError, false)
    ∧ XTBAuth_logout ReplyParse.notJson
        = (Except.error PyError.attributeError, false)
    ∧ XTBAuth_logout ReplyParse.noStatus
        = (Except.error PyError.attributeError, false)
    ∧ XTBAuth_logout (ReplyParse.withStatus true)
        = (Except.error PyError.attributeError, false) := by
  refine ⟨?_, ?_, ?_, ?_, ?_, ?_⟩ <;> rfl

/-- C3: for every reply of exactly 10 rate records, slicing with
`desiredCount = 3` yields the metadata record followed by the last 3
records in original order (4 output records), and `desiredCount = 0`
yields the metadata record (with count 10) followed by all 10 records
(11 output records). -/
theorem parse_slicing_ten (l : List RateInfo) (digits : Int)
    (h : l.length = 10) :
    parse_candle_response l digits 3
        = some (Candle.meta digits 3 :: (l.drop 7).map rateToCandle)
    ∧ (Candle.meta digits 3 :: (l.drop 7).map rateToCandle).length = 4
    ∧ parse_candle_response l digits 0
        = some (Candle.meta digits 10 :: l.map rateToCandle)
    ∧ (Candle.meta digits 10 :: l.map rateToCandle).length = 11 := by
  have hne : l.isEmpty = false := by
    cases l with
    | nil => simp at h
    | cons a t => rfl
  have hlen : (l.length : Int) = 10 := by rw [h]; norm_num
  refine ⟨?_, ?_, ?_, ?_⟩
  · simp [parse_candle_response, hne, hlen]
  · simp [h]
  · simp [parse_candle_response, hne, hlen]
  · simp [h]

/-- Witness for `parse_slicing_ten` at the concrete ten-record reply. -/
theorem parse_slicing_ten_witness :
    sampleRates.length = 10
    ∧ (parse_candle_response sampleRates 5 3
        = some (Candle.meta 5 3 :: (sampleRates.drop 7).map rateToCandle)
      ∧ (Candle.meta 5 3 :: (sampleRates.drop 7).map rateToCandle).length = 4
      ∧ parse_candle_response sampleRates 5 0
        = some (Candle.meta 5 10 :: sampleRates.map rateToCandle)
      ∧ (Candle.meta 5 10 :: sampleRates.map rateToCandle).length = 11) :=
  ⟨by decide, parse_slicing_ten sampleRates 5 (by decide)⟩

/-- C4: on a reply whose `rateInfos` array is empty, both the shared
helper `_parse_candle_response` and the inline shaping of
`XTB.get_candles_range` return the `False` sentinel (`none` here), never
a metadata-only sequence and without raising. -/
theorem empty_rateinfos_sentinel (digits qty_candles : Int) :
    parse_candle_response [] digits qty_candles = none
    ∧ get_candles_range_shape [] digits qty_candles = Except.ok none :=
  ⟨rfl, rfl⟩

/-- Witness for `empty_rateinfos_sentinel` at concrete arguments. -/
theorem empty_rateinfos_sentinel_witness :
    parse_candle_response [] 5 3 = none
    ∧ get_candles_range_shape [] 5 3 = Except.ok none :=
  empty_rateinfos_sentinel 5 3

/-- C7 counterexample: on the unsupported token M2, the period chain of
`XTB.get_candles_range` proceeds with the unresolved token (it yields the
string back) instead of failing with `ValueError` as the claim states;
the shared resolver does raise. -/
theorem range_period_passthrough_counterexample :
    XTB_get_candles_range_period ("M2") = Sum.inr ("M2")
    ∧ resolve_period_minutes ("M2") = Except.error PyError.valueError :=
  ⟨rfl, rfl⟩

/-- C7 amended: `_resolve_period_minutes` (and the identical inline check
of `XTB.get_candles`) maps the nine tokens to their documented minute
values and raises `ValueError` on any other token, while the `if`/`elif`
chain of `XTB.get_candles_range` maps the nine tokens identically but
passes any other token through unresolved. -/
theorem period_resolution_amended (p : String) (h : period_map p = none) :
    periodTokens.map resolve_period_minutes = periodValues.map Except.ok
    ∧ periodTokens.map XTB_get_candles_range_period = periodValues.map Sum.inl
    ∧ resolve_period_minutes p = Except.error PyError.valueError
    ∧ XTB_get_candles_range_period p = Sum.inr p := by
  refine ⟨by decide, by decide, ?_, ?_⟩
  · simp [resolve_period_minutes, h]
  · unfold period_map at h
    unfold XTB_get_candles_range_period
    split_ifs at h ⊢ <;> simp_all

/-- Witness for `period_resolution_amended` at the concrete token M2. -/
theorem period_resolution_amended_witness :
    period_map ("M2") = none
    ∧ (periodTokens.map resolve_period_minutes = periodValues.map Except.ok
      ∧ periodTokens.map XTB_get_candles_range_period = periodValues.map Sum.inl
      ∧ resolve_period_minutes ("M2") = Except.error PyError.valueError
      ∧ XTB_get_candles_range_period ("M2") = Sum.inr ("M2")) :=
  ⟨by decide, period_resolution_amended ("M2") (by decide)⟩

/-- C10 counterexample: on a one-record reply with `desiredCount = 2`, the
inline loop of `XTB.get_candles_range` starts at index -1, and Python
negative indexing re-reads the last record, so the single record appears
twice; the shared helper returns it once, so the two shapings disagree. -/
theorem range_vs_helper_counterexample :
    get_candles_range_shape sampleOne 5 2
      = Except.ok (some [Candle.meta 5 2, rateToCandle rA, rateToCandle rA])
    ∧ parse_candle_response sampleOne 5 2
      = some [Candle.meta 5 2, rateToCandle rA]
    ∧ get_candles_range_shape sampleOne 5 2
      ≠ Except.ok (parse_candle_response sampleOne 5 2) := by
  refine ⟨rfl, rfl, ?_⟩
  decide

/-- The loop of `get_candles_range_shape` over indices `s, s+1, ..., len-1`
(all non-negative) reads off exactly the records from position `s` on. -/
theorem loopRecords_range_aux (l : List RateInfo) :
    ∀ (m s : Nat), l.length - s = m →
      loopRecords l ((List.range m).map (fun (k : ℕ) => (s : Int) + (k : Int)))
        = Except.ok ((l.drop s).map rateToCandle) := by
  intro m
  induction m with
  | zero =>
    intro s hs
    have hle : l.length ≤ s := by omega
    simp [loopRecords, List.drop_eq_nil_of_le hle]
  | succ m ih =>
    intro s hs
    have hlt : s < l.length := by omega
    have h1 : (List.range (m + 1)).map (fun (k : ℕ) => (s : Int) + (k : Int))
        = (s : Int)
          :: (List.range m).map (fun (k : ℕ) => ((s + 1 : Nat) : Int) + (k : Int)) := by
      rw [List.range_succ_eq_map, List.map_cons, List.map_map]
      refine congrArg₂ List.cons (by norm_num) ?_
      apply List.map_congr_left
      intro k _
      simp only [Function.comp_apply]
      push_cast
      ring
    have htn : ((s : Int)).toNat = s := by omega
    have hidx : pyIndex l (s : Int) = some (l.get ⟨s, hlt⟩) := by
      simp [pyIndex, htn, List.getElem?_eq_getElem hlt]
    have ihe := ih (s + 1) (by omega)
    rw [h1]
    simp only [loopRecords, hidx, ihe]
    rw [List.drop_eq_getElem_cons hlt, List.map_cons]
    simp [List.get_eq_getElem]

/-- Specialisation of `loopRecords_range_aux` to `pyRange s len`. -/
theorem loopRecords_drop (l : List RateInfo) (s : Nat) :
    loopRecords l (pyRange (s : Int) (l.length : Int))
      = Except.ok ((l.drop s).map rateToCandle) := by
  have hn : ((l.length : Int) - (s : Int)).toNat = l.length - s := by omega
  unfold pyRange
  rw [hn]
  exact loopRecords_range_aux l (l.length - s) s rfl

/-- C10 amended: whenever `0 ≤ desiredCount ≤ number of rate records`
(including `desiredCount = 0`), the inline shaping of
`XTB.get_candles_range` and the shared `_parse_candle_response` helper
produce the same output; outside that range the inline loop re-emits
trailing records through negative indices (see the counterexample). -/
theorem range_shape_matches_helper (l : List RateInfo) (digits q : Int)
    (h0 : 0 ≤ q) (h1 : q ≤ (l.length : Int)) :
    get_candles_range_shape l digits q
      = Except.ok (parse_candle_response l digits q) := by
  by_cases hq : q = 0
  · subst hq
    cases l with
    | nil => rfl
    | cons a t =>
      have hdrop : loopRecords (a :: t) (pyRange 0 ((t.length : Int) + 1))
          = Except.ok (rateToCandle a :: t.map rateToCandle) := by
        have h := loopRecords_drop (a :: t) 0
        simpa using h
      simp [get_candles_range_shape, parse_candle_response, hdrop]
  · have hq1 : 1 ≤ q := by omega
    have hc : ¬ ((l.length : Int) = 0) := by omega
    have hne : l.isEmpty = false := by
      cases l with
      | nil => simp at hc
      | cons a t => rfl
    have hs : ((l.length : Int) - q) = ((l.length - q.toNat : Nat) : Int) := by
      omega
    have hdrop := loopRecords_drop l (l.length - q.toNat)
    rw [← hs] at hdrop
    have hmax : max 0 ((l.length : Int) - q) = (l.length : Int) - q :=
      max_eq_right (by omega)
    have htn : ((l.length : Int) - q).toNat = l.length - q.toNat := by omega
    have hll : ¬ ((Candle.meta digits q
        :: (l.drop (l.length - q.toNat)).map rateToCandle).length = 1) := by
      simp [List.length_drop]
      omega
    simp only [get_candles_range_shape, parse_candle_response, if_neg hq,
      if_neg hc, hne, Bool.false_eq_true, if_false, hdrop, hmax, htn,
      if_neg hll]

/-- Witness for `range_shape_matches_helper` at the ten-record reply with
`desiredCount = 2`. -/
theorem range_shape_matches_helper_witness :
    (0 : Int) ≤ 2 ∧ (2 : Int) ≤ (sampleRates.length : Int)
    ∧ get_candles_range_shape sampleRates 5 2
        = Except.ok (parse_candle_response sampleRates 5 2) :=
  ⟨by decide, by decide,
    range_shape_matches_helper sampleRates 5 2 (by decide) (by decide)⟩
